import Mathlib

/-! Shallow embedding of the asynchronous analysis pipeline of the backend
service (`routes/webhooks.py` and the services it calls), with theorems
checking the natural-language specification against the code.

Numbers are modelled as `Nat`/`Int`/`ℚ` with explicit reduction modulo
`2 ^ 32` where the SHA-256 arithmetic overflows.  Bytes are `Nat` values
below 256, byte strings are `List Nat`. -/

namespace Backend

/-! SHA-256 over byte lists, following FIPS 180-4, as used by Python
`hashlib.sha256`; this is the hash underlying the webhook signature. -/

def w32 : Nat := 4294967296

def rotr (n x : Nat) : Nat := ((x >>> n) ||| ((x <<< (32 - n)) % w32))

def chF (x y z : Nat) : Nat := (x &&& y) ^^^ ((x ^^^ 4294967295) &&& z)

def majF (x y z : Nat) : Nat := (x &&& y) ^^^ (x &&& z) ^^^ (y &&& z)

def bigSigma0 (x : Nat) : Nat := rotr 2 x ^^^ rotr 13 x ^^^ rotr 22 x

def bigSigma1 (x : Nat) : Nat := rotr 6 x ^^^ rotr 11 x ^^^ rotr 25 x

def smallSigma0 (x : Nat) : Nat := rotr 7 x ^^^ rotr 18 x ^^^ (x >>> 3)

def smallSigma1 (x : Nat) : Nat := rotr 17 x ^^^ rotr 19 x ^^^ (x >>> 10)

def kConstants : List Nat :=
  [1116352408, 1899447441, 3049323471, 3921009573, 961987163,
   1508970993, 2453635748, 2870763221, 3624381080, 310598401,
   607225278, 1426881987, 1925078388, 2162078206, 2614888103,
   3248222580, 3835390401, 4022224774, 264347078, 604807628,
   770255983, 1249150122, 1555081692, 1996064986, 2554220882,
   2821834349, 2952996808, 3210313671, 3336571891, 3584528711,
   113926993, 338241895, 666307205, 773529912, 1294757372,
   1396182291, 1695183700, 1986661051, 2177026350, 2456956037,
   2730485921, 2820302411, 3259730800, 3345764771, 3516065817,
   3600352804, 4094571909, 275423344, 430227734, 506948616,
   659060556, 883997877, 958139571, 1322822218, 1537002063,
   1747873779, 1955562222, 2024104815, 2227730452, 2361852424,
   2428436474, 2756734187, 3204031479, 3329325298]

/-- Big-endian byte rendering of a value on `n` bytes. -/
def beBytes : Nat → Nat → List Nat
  | 0, _ => []
  | k + 1, v => beBytes k (v >>> 8) ++ [v % 256]

/-- Padding of FIPS 180-4: the byte 0x80, zeros up to 56 mod 64, then the
bit length on eight big-endian bytes. -/
def padMessage (msg : List Nat) : List Nat :=
  let zeros := (120 - ((msg.length + 1) % 64)) % 64
  msg ++ [128] ++ List.replicate zeros 0 ++ beBytes 8 (msg.length * 8)

def toBlocksAux : Nat → List Nat → List (List Nat)
  | 0, _ => []
  | _ + 1, [] => []
  | n + 1, x :: xs => (x :: xs).take 64 :: toBlocksAux n ((x :: xs).drop 64)

def toBlocks (l : List Nat) : List (List Nat) := toBlocksAux l.length l

def bytesToWords : List Nat → List Nat
  | b0 :: b1 :: b2 :: b3 :: rest =>
      (b0 * 16777216 + b1 * 65536 + b2 * 256 + b3) :: bytesToWords rest
  | _ => []

def scheduleStep (ws : List Nat) : List Nat :=
  let n := ws.length
  let w16 := ws.getD (n - 16) 0
  let w15 := ws.getD (n - 15) 0
  let w7 := ws.getD (n - 7) 0
  let w2 := ws.getD (n - 2) 0
  ws ++ [(w16 + smallSigma0 w15 + w7 + smallSigma1 w2) % w32]

def extendScheduleAux : Nat → List Nat → List Nat
  | 0, ws => ws
  | n + 1, ws => extendScheduleAux n (scheduleStep ws)

def extendSchedule (ws : List Nat) : List Nat :=
  extendScheduleAux (64 - ws.length) ws

structure Hash8 where
  a : Nat
  b : Nat
  c : Nat
  d : Nat
  e : Nat
  f : Nat
  g : Nat
  h : Nat
deriving DecidableEq, Repr

def initHash : Hash8 :=
  ⟨1779033703, 3144134277, 1013904242, 2773480762,
   1359893119, 2600822924, 528734635, 1541459225⟩

def roundStep (s : Hash8) (kw : Nat × Nat) : Hash8 :=
  let t1 := (s.h + bigSigma1 s.e + chF s.e s.f s.g + kw.1 + kw.2) % w32
  let t2 := (bigSigma0 s.a + majF s.a s.b s.c) % w32
  ⟨(t1 + t2) % w32, s.a, s.b, s.c, (s.d + t1) % w32, s.e, s.f, s.g⟩

def compressBlock (s : Hash8) (block : List Nat) : Hash8 :=
  let ws := extendSchedule (bytesToWords block)
  let t := (kConstants.zip ws).foldl roundStep s
  ⟨(s.a + t.a) % w32, (s.b + t.b) % w32, (s.c + t.c) % w32, (s.d + t.d) % w32,
   (s.e + t.e) % w32, (s.f + t.f) % w32, (s.g + t.g) % w32, (s.h + t.h) % w32⟩

def sha256Bytes (msg : List Nat) : List Nat :=
  let s := (toBlocks (padMessage msg)).foldl compressBlock initHash
  ([s.a, s.b, s.c, s.d, s.e, s.f, s.g, s.h].map (beBytes 4)).flatten

/-! Hex rendering (`hexdigest`) and UTF-8 encoding (`str.encode`). -/

def hexDigit (n : Nat) : Char :=
  if n < 10 then Char.ofNat (48 + n) else Char.ofNat (87 + n)

def byteToHex (b : Nat) : List Char := [hexDigit (b / 16), hexDigit (b % 16)]

def bytesToHex (bs : List Nat) : String := String.mk ((bs.map byteToHex).flatten)

def sha256Hex (msg : List Nat) : String := bytesToHex (sha256Bytes msg)

def encodeChar (c : Char) : List Nat :=
  let n := c.toNat
  if n < 128 then [n]
  else if n < 2048 then [192 + n / 64, 128 + n % 64]
  else if n < 65536 then [224 + n / 4096, 128 + (n / 64) % 64, 128 + n % 64]
  else [240 + n / 262144, 128 + (n / 4096) % 64, 128 + (n / 64) % 64, 128 + n % 64]

def utf8Bytes (s : String) : List Nat := (s.data.map encodeChar).flatten

/-! Character-list implementations of the Python string operations the
embedding needs (`startswith`, `endswith`, `lower`, splitting). -/

def strStartsWith (s pre : String) : Bool := pre.data.isPrefixOf s.data

def strEndsWith (s suf : String) : Bool := suf.data.isSuffixOf s.data

def strToLower (s : String) : String := String.mk (s.data.map Char.toLower)

/-- Splitting of a character list at every separator character (runs of
separators produce empty pieces, as in Python `str.split(sep)`). -/
def splitCharsAux (p : Char → Bool) : List Char → List Char → List (List Char)
  | acc, [] => [acc.reverse]
  | acc, c :: rest =>
      if p c then acc.reverse :: splitCharsAux p [] rest
      else splitCharsAux p (c :: acc) rest

def splitPieces (p : Char → Bool) (s : String) : List String :=
  (splitCharsAux p [] s.data).map String.mk

/-! HMAC with SHA-256, following Python `hmac.new(key, msg, hashlib.sha256)`
(RFC 2104 with a 64-byte block: hash keys longer than a block, zero-pad,
XOR with the inner and outer pads). -/

def hmacSha256 (key msg : List Nat) : List Nat :=
  let k0 := if 64 < key.length then sha256Bytes key else key
  let kPad := k0 ++ List.replicate (64 - k0.length) 0
  let innerKey := kPad.map (fun b => b ^^^ 54)
  let outerKey := kPad.map (fun b => b ^^^ 92)
  sha256Bytes (outerKey ++ sha256Bytes (innerKey ++ msg))

def hmacSha256Hex (key msg : List Nat) : String := bytesToHex (hmacSha256 key msg)

end Backend

namespace Backend

/-! JSON values and the canonical rendering produced by Python
`json.dumps(value, separators=(",", ":"))` with its default
`ensure_ascii=True` escaping.  The numbers occurring in the pipeline
payloads are integers, so the model carries `Int`. -/

mutual

inductive Json where
  | null
  | bool (b : Bool)
  | int (n : Int)
  | str (s : String)
  | arr (xs : JsonArr)
  | obj (fields : JsonObj)

inductive JsonArr where
  | nil
  | cons (hd : Json) (tl : JsonArr)

inductive JsonObj where
  | nil
  | cons (key : String) (val : Json) (tl : JsonObj)

end

/-- Smart constructor building a JSON array from a plain list. -/
def jArr (xs : List Json) : Json :=
  .arr (xs.foldr (fun x acc => JsonArr.cons x acc) JsonArr.nil)

/-- Smart constructor building a JSON object from a plain field list. -/
def jObj (fs : List (String × Json)) : Json :=
  .obj (fs.foldr (fun p acc => JsonObj.cons p.1 p.2 acc) JsonObj.nil)

def hex4 (n : Nat) : String :=
  String.mk [hexDigit (n / 4096 % 16), hexDigit (n / 256 % 16),
             hexDigit (n / 16 % 16), hexDigit (n % 16)]

/-- Escaping of one character inside a JSON string, as `json.dumps` does it:
two-character escapes for quote, backslash and the common control
characters, `\u` escapes for other control characters and for every
non-ASCII character (with surrogate pairs beyond the BMP). -/
def escapeChar (c : Char) : String :=
  let n := c.toNat
  if n = 34 then "\\\""
  else if n = 92 then "\\\\"
  else if n = 10 then "\\n"
  else if n = 9 then "\\t"
  else if n = 13 then "\\r"
  else if n = 8 then "\\b"
  else if n = 12 then "\\f"
  else if n < 32 then "\\u" ++ hex4 n
  else if n < 128 then String.singleton c
  else if n < 65536 then "\\u" ++ hex4 n
  else "\\u" ++ hex4 (55296 + (n - 65536) / 1024) ++ "\\u" ++ hex4 (56320 + (n - 65536) % 1024)

def escapeString (s : String) : String :=
  "\"" ++ String.join (s.data.map escapeChar) ++ "\""

mutual

/-- Compact rendering of a JSON value, following
`json.dumps(v, separators=(",", ":"))`. -/
def renderJson : Json → String
  | .null => "null"
  | .bool true => "true"
  | .bool false => "false"
  | .int n => toString n
  | .str s => escapeString s
  | .arr xs => "[" ++ renderArr xs ++ "]"
  | .obj fs => "\x7b" ++ renderObj fs ++ "\x7d"

def renderArr : JsonArr → String
  | .nil => ""
  | .cons x .nil => renderJson x
  | .cons x (.cons y tl) => renderJson x ++ "," ++ renderArr (.cons y tl)

def renderObj : JsonObj → String
  | .nil => ""
  | .cons k v .nil => escapeString k ++ ":" ++ renderJson v
  | .cons k v (.cons k2 v2 tl) =>
      escapeString k ++ ":" ++ renderJson v ++ "," ++ renderObj (.cons k2 v2 tl)

end

/-- Lookup of a key in a JSON object with the `json.loads` semantics for
duplicate keys: the last occurrence wins. -/
def lookupLast (fs : JsonObj) (k : String) : Option Json :=
  match fs with
  | .nil => none
  | .cons key val tl => match lookupLast tl k with
      | some v => some v
      | none => if key = k then some val else none

def objKeys : JsonObj → List String
  | .nil => []
  | .cons k _ tl => k :: objKeys tl

end Backend

namespace Backend

/-! Pydantic data models from `models/schemas.py`.  Timestamps, durations
and confidences are modelled as `ℚ`. -/

structure Word where
  text : String
  confidence : ℚ
deriving DecidableEq, Repr

structure TranscriptBlock where
  id : String
  timestamp : ℚ
  duration : ℚ
  text : String
  words : List Word
  speaker : Option String
deriving DecidableEq, Repr

/-- Data model for the analysis report (`AnalysisData`): every field is
optional, values are kept as JSON; `model_config` ignores extra keys. -/
structure AnalysisData where
  generalComments : Option Json
  executiveSummary : Option Json
  strengthsWeaknesses : Option Json
  thinkingProcess : Option Json
  keyPoints : Option Json
  codingChallenge : Option Json
  technologies : Option Json
  qaTopics : Option Json
  statistics : Option Json
  docx_path : Option Json

def objAll (p : Json → Bool) : JsonObj → Bool
  | .nil => true
  | .cons _ v tl => p v && objAll p tl

def arrAll (p : Json → Bool) : JsonArr → Bool
  | .nil => true
  | .cons v tl => p v && arrAll p tl

def isStr : Json → Bool
  | .str _ => true
  | _ => false

def isObj : Json → Bool
  | .obj _ => true
  | _ => false

/-- Check for `Dict[str, str]`. -/
def isStrMap : Json → Bool
  | .obj fs => objAll isStr fs
  | _ => false

/-- Check for `List[str]`. -/
def isStrList : Json → Bool
  | .arr xs => arrAll isStr xs
  | _ => false

/-- Check for `Dict[str, List[str]]`. -/
def isStrListMap : Json → Bool
  | .obj fs => objAll isStrList fs
  | _ => false

/-- Check for `List[Dict[str, str]]`. -/
def isStrMapList : Json → Bool
  | .arr xs => arrAll isStrMap xs
  | _ => false

/-- Validation of one optional field: absent or JSON null gives `None`,
a present value must satisfy the declared type or validation fails. -/
def parseOptField (fs : JsonObj) (name : String) (check : Json → Bool) :
    Except String (Option Json) :=
  match lookupLast fs name with
  | none => .ok none
  | some .null => .ok none
  | some v => if check v then .ok (some v) else .error ("invalid field " ++ name)

/-- Model of `AnalysisData(**json_response)`: keyword construction from a
parsed JSON object, validating each declared field and ignoring unknown
keys (`extra="ignore"`); a non-object response fails. -/
def mkAnalysisData (j : Json) : Except String AnalysisData :=
  match j with
  | .obj fs => do
      let gc ← parseOptField fs "generalComments" isStrMap
      let es ← parseOptField fs "executiveSummary" isStr
      let sw ← parseOptField fs "strengthsWeaknesses" isStrListMap
      let tp ← parseOptField fs "thinkingProcess" isObj
      let kp ← parseOptField fs "keyPoints" isStrMapList
      let cc ← parseOptField fs "codingChallenge" isStrMap
      let te ← parseOptField fs "technologies" isStrMapList
      let qa ← parseOptField fs "qaTopics" isStrMapList
      let st ← parseOptField fs "statistics" isObj
      let dp ← parseOptField fs "docx_path" isStr
      pure ⟨gc, es, sw, tp, kp, cc, te, qa, st, dp⟩
  | _ => .error "AnalysisData expects keyword arguments from a JSON object"

/-- Populated (non-`None`) top-level keys of an `AnalysisData`, in field
declaration order. -/
def populatedKeys (d : AnalysisData) : List String :=
  (if d.generalComments.isSome then ["generalComments"] else []) ++
  (if d.executiveSummary.isSome then ["executiveSummary"] else []) ++
  (if d.strengthsWeaknesses.isSome then ["strengthsWeaknesses"] else []) ++
  (if d.thinkingProcess.isSome then ["thinkingProcess"] else []) ++
  (if d.keyPoints.isSome then ["keyPoints"] else []) ++
  (if d.codingChallenge.isSome then ["codingChallenge"] else []) ++
  (if d.technologies.isSome then ["technologies"] else []) ++
  (if d.qaTopics.isSome then ["qaTopics"] else []) ++
  (if d.statistics.isSome then ["statistics"] else []) ++
  (if d.docx_path.isSome then ["docx_path"] else [])

/-- Rendering of `analysis_data.model_dump()`: every declared field appears,
absent fields as JSON null. -/
def analysisDump (d : AnalysisData) : Json :=
  jObj [("generalComments", d.generalComments.getD .null),
        ("executiveSummary", d.executiveSummary.getD .null),
        ("strengthsWeaknesses", d.strengthsWeaknesses.getD .null),
        ("thinkingProcess", d.thinkingProcess.getD .null),
        ("keyPoints", d.keyPoints.getD .null),
        ("codingChallenge", d.codingChallenge.getD .null),
        ("technologies", d.technologies.getD .null),
        ("qaTopics", d.qaTopics.getD .null),
        ("statistics", d.statistics.getD .null),
        ("docx_path", d.docx_path.getD .null)]

end Backend

namespace Backend

/-! Prompt blocks (`services/prompt_blocks.py`, `services/prompt_engine.py`):
the registry of known block ids, the default order, and the block
selection done by `PromptBuilder.__init__` (unknown ids are skipped with a
warning, a missing list means the default order). -/

def AVAILABLE_BLOCK_IDS : List String :=
  ["executive_summary", "general_comments", "strengths_weaknesses",
   "key_points", "coding_challenge", "technologies", "thinking_process",
   "qa_topics", "statistics"]

def DEFAULT_BLOCK_ORDER : List String :=
  ["executive_summary", "general_comments", "strengths_weaknesses",
   "key_points", "coding_challenge", "technologies", "thinking_process",
   "qa_topics", "statistics"]

/-- Top-level JSON key contributed by a block (its schema fragment and
required key). -/
def blockSchemaKey : String → Option String
  | "executive_summary" => some "executiveSummary"
  | "general_comments" => some "generalComments"
  | "strengths_weaknesses" => some "strengthsWeaknesses"
  | "key_points" => some "keyPoints"
  | "coding_challenge" => some "codingChallenge"
  | "technologies" => some "technologies"
  | "thinking_process" => some "thinkingProcess"
  | "qa_topics" => some "qaTopics"
  | "statistics" => some "statistics"
  | _ => none

def selectBlocks (block_ids : Option (List String)) : List String :=
  (block_ids.getD DEFAULT_BLOCK_ORDER).filter (fun b => AVAILABLE_BLOCK_IDS.contains b)

/-! Analysis service (`services/analysis_service.py`). -/

/-- Outcome of the `model.generate_content` call: the call can raise
(transport/auth failure), return an empty/falsy response, or return text. -/
inductive LlmOutcome where
  | raises (msg : String)
  | emptyResp
  | text (s : String)

/-- External collaborators of `generate_analysis_report`: the configured
project id, the generative model (a function of the selected model name,
the selected blocks and the transcript, which together determine the
assembled prompt), and `json.loads`. -/
structure AnalysisEnv where
  projectId : Option String
  llm : String → List String → String → LlmOutcome
  jsonLoads : String → Except String Json

def modelNameFor (model_mode : String) : String :=
  if model_mode = "fast" then "gemini-2.5-flash-lite" else "gemini-2.5-flash"

def mockGeneralComments : Json :=
  jObj [("howInterview", .str "This was a structured technical interview with a balanced mix of coding challenges and Q&A discussion. The interviewer maintained a professional yet conversational tone throughout."),
        ("attitude", .str "The interviewer was collaborative and encouraging, providing helpful hints when the candidate encountered challenges. They demonstrated patience and actively engaged with the candidate\x27s questions."),
        ("structure", .str "Introduction and Role Overview (~5:00), Live Coding Challenge (~25:00), Technical Discussion (~10:00), Candidate Q&A (~10:00), Closing Remarks (~5:00)"),
        ("platform", .str "The interview was conducted using VS Code Live Share on the candidate\x27s machine, with Zoom for video communication.")]

def mockKeyPoints : Json :=
  jArr [jObj [("title", .str "Clean Code and Maintainability"),
              ("content", .str "The interviewer strongly emphasized writing readable, well-structured code with meaningful variable names and proper separation of concerns.")],
        jObj [("title", .str "Problem-Solving Approach"),
              ("content", .str "Focus on understanding the problem thoroughly before jumping into implementation, including edge cases and constraints.")],
        jObj [("title", .str "Testing Mindset"),
              ("content", .str "Emphasis on thinking through test cases and potential failure scenarios while writing code.")],
        jObj [("title", .str "Communication Skills"),
              ("content", .str "The interviewer valued clear articulation of thought processes and the ability to explain technical decisions.")]]

def mockCodingChallenge : Json :=
  jObj [("coreExercise", .str "Implement a function to find the longest substring without repeating characters, with follow-up optimizations."),
        ("followUp", .str "Optimize the solution from O(n²) to O(n) time complexity using a sliding window approach with hash map."),
        ("knowledge", .str "Language: JavaScript/TypeScript, Core Concepts: Hash Maps, Sliding Window Algorithm, String Manipulation, Time/Space Complexity Analysis")]

def mockTechnologies : Json :=
  jArr [jObj [("name", .str "React"), ("timestamps", .str "05:00-30:00")],
        jObj [("name", .str "TypeScript"), ("timestamps", .str "05:00-30:00")],
        jObj [("name", .str "Node.js"), ("timestamps", .str "15:00-20:00")],
        jObj [("name", .str "Express"), ("timestamps", .str "15:00-20:00")],
        jObj [("name", .str "PostgreSQL"), ("timestamps", .str "20:00-25:00")],
        jObj [("name", .str "Jest"), ("timestamps", .str "25:00-30:00")],
        jObj [("name", .str "Docker"), ("timestamps", .str "30:00-35:00")],
        jObj [("name", .str "GitHub Actions"), ("timestamps", .str "35:00-40:00")]]

def mockQaTopics : Json :=
  jArr [jObj [("title", .str "Team Structure and Growth Plans"),
              ("content", .str "The team currently consists of 8 engineers and is planning to expand to 12 by Q3. There\x27s a focus on building specialized sub-teams for different product areas.")],
        jObj [("title", .str "Work-Life Balance and Flexibility"),
              ("content", .str "The company offers hybrid work with 2 days in office requirement. They emphasize sustainable pace and discourage regular overtime.")],
        jObj [("title", .str "Learning and Development Opportunities"),
              ("content", .str "Annual learning budget of $2000 per engineer, weekly tech talks, and quarterly hackathons. Mentorship program available for growth.")]]

def mockStatistics : Json :=
  jObj [("duration", .str "55:00"),
        ("technicalTime", .str "35:00 (64%)"),
        ("qaTime", .str "15:00 (27%)"),
        ("technicalQuestions", .int 3),
        ("followUpQuestions", .int 8),
        ("technologiesCount", .int 8),
        ("complexity", .str "Intermediate to Advanced"),
        ("pace", .str "Moderate"),
        ("engagement", .int 8),
        ("communicationScore", .int 85),
        ("communicationScoreExplanation", .str "Candidate was articulate and explained complex concepts clearly, though occasionally needed redirection."),
        ("technicalDepthScore", .int 75),
        ("technicalDepthScoreExplanation", .str "Demonstrated solid understanding of React hooks and state management, but struggled with database indexing concepts."),
        ("engagementScore", .int 80),
        ("engagementScoreExplanation", .str "Maintained good eye contact and asked relevant questions about the engineering culture.")]

/-- Fixed mock report returned by every fallback path of
`generate_analysis_report` (`AnalysisData(**mock_data)`). -/
def mockAnalysisData : AnalysisData :=
  ⟨some mockGeneralComments, none, none, none, some mockKeyPoints,
   some mockCodingChallenge, some mockTechnologies, some mockQaTopics,
   some mockStatistics, none⟩

/-- Model of `generate_analysis_report`: with a configured project id it
calls the model and parses/validates the JSON answer; a missing project
id, a raising call, an empty response, malformed JSON, or failed
validation all fall through to the fixed mock report. -/
def generate_analysis_report (env : AnalysisEnv) (transcript_text : String)
    (enabled_blocks : Option (List String)) (model_mode : String) : AnalysisData :=
  match env.projectId with
  | none => mockAnalysisData
  | some _ =>
      match env.llm (modelNameFor model_mode) (selectBlocks enabled_blocks) transcript_text with
      | .raises _ => mockAnalysisData
      | .emptyResp => mockAnalysisData
      | .text s =>
          match env.jsonLoads s with
          | .error _ => mockAnalysisData
          | .ok j =>
              match mkAnalysisData j with
              | .error _ => mockAnalysisData
              | .ok d => d

end Backend

namespace Backend

/-! Transcription adapter (`transcribe_with_deepgram` in
`services/transcription_service.py`). -/

/-- Word object inside a Deepgram utterance. -/
structure DgWord where
  word : String
  punctuated_word : Option String
  confidence : ℚ
deriving DecidableEq, Repr

/-- Deepgram utterance: start/end offsets in seconds, the formatted
transcript text, an optional numeric speaker index, and word objects. -/
structure Utterance where
  start : ℚ
  stop : ℚ
  transcript : String
  speaker : Option Int
  words : List DgWord
deriving DecidableEq, Repr

/-- The slice of the provider response the parser touches:
`results.channels` (each channel carrying its `alternatives` count) and
`results.utterances`. -/
structure DgResults where
  channels : List Nat
  utterances : Option (List Utterance)
deriving DecidableEq, Repr

/-- External collaborators of the adapter: SDK availability, the API key,
the transport call (which may raise), and the uuid generator supplying
`str(uuid.uuid4())` for the i-th created block. -/
structure TranscriptionEnv where
  sdkInstalled : Bool
  apiKey : Option String
  transport : Except String (Option DgResults)
  idGen : Nat → String

/-- Capitalization of the first letter, as in the source: for a nonempty
text, uppercase the first character and keep the rest. -/
def capFirst (s : String) : String :=
  match s.data with
  | [] => s
  | c :: rest => String.mk (c.toUpper :: rest)

/-- Word cleaning for the confidence map: keep alphanumeric characters and
the apostrophe, lowercase the result. -/
def cleanWord (s : String) : String :=
  String.mk ((s.data.filter (fun c => c.isAlphanum || c.toNat = 39)).map Char.toLower)

/-- Python `str.split()`: split on whitespace runs, no empty pieces. -/
def pySplit (s : String) : List String :=
  (splitPieces (fun c => c.isWhitespace) s).filter (fun p => p ≠ "")

/-- Confidence map built from the utterance words (a Python dict: the last
binding for a key wins), keyed by the cleaned `punctuated_word` (falling
back to `word`), empty keys skipped. -/
def confEntries (ws : List DgWord) : List (String × ℚ) :=
  (ws.map (fun w => (cleanWord (w.punctuated_word.getD w.word), w.confidence))).filter
    (fun p => p.1 ≠ "")

def lookupConf (entries : List (String × ℚ)) (k : String) : Option ℚ :=
  entries.reverse.lookup k

/-- One `TranscriptBlock` built from one utterance, as in the parsing loop. -/
def blockOfUtterance (idStr : String) (u : Utterance) : TranscriptBlock :=
  let text := capFirst u.transcript
  let entries := confEntries u.words
  let words := (pySplit text).map
    (fun tw => Word.mk tw ((lookupConf entries (cleanWord tw)).getD 1))
  { id := idStr
    timestamp := u.start
    duration := u.stop - u.start
    text := text
    words := words
    speaker := u.speaker.map (fun n => "Speaker " ++ toString (n + 1)) }

def blocksOfUtterances (idGen : Nat → String) (i : Nat) :
    List Utterance → List TranscriptBlock
  | [] => []
  | u :: rest => blockOfUtterance (idGen i) u :: blocksOfUtterances idGen (i + 1) rest

/-- Model of `transcribe_with_deepgram`: pre-flight checks, the transport
call, the `results`/`channels`/`alternatives` checks, then one block per
utterance in provider order.  Every raised exception surfaces as an
`HTTPException`, modelled as `Except.error`. -/
def transcribe_with_deepgram (env : TranscriptionEnv) (audio_url : String) :
    Except String (List TranscriptBlock) :=
  if ¬env.sdkInstalled then .error "deepgram-sdk not installed"
  else match env.apiKey with
  | none => .error "DEEPGRAM_API_KEY not found"
  | some _ =>
      match env.transport with
      | .error e => .error ("Deepgram transcription failed: " ++ e)
      | .ok none => .error "Deepgram transcription failed: No results from Deepgram"
      | .ok (some results) =>
          match results.channels with
          | [] => .error "Deepgram transcription failed: No results from Deepgram"
          | nAlternatives :: _ =>
              if nAlternatives = 0 then
                .error "Deepgram transcription failed: list index out of range"
              else
                .ok (blocksOfUtterances env.idGen 0 (results.utterances.getD []))

/-! Waveform service (`services/waveform_service.py`). -/

/-- External collaborators of `generate_waveform_universal`: the WAV
reader result, the MP3 conversion result (each `none` when that helper
fails and returns None), and the `random.uniform(0.3, 1.0)` draws of the
placeholder generator. -/
structure WaveformEnv where
  wavResult : Option (List ℚ)
  mp3Result : Option (List ℚ)
  rand : Nat → ℚ
deriving Inhabited

/-- Python truthiness of `waveform` after a helper call: not None and not
the empty list. -/
def truthyWave : Option (List ℚ) → Bool
  | some (_ :: _) => true
  | _ => false

/-- Model of `generate_waveform_universal`: try the WAV reader for `.wav`
paths, the MP3 converter for `.mp3` paths, and otherwise return the
placeholder of `samples` pseudo-random values.  The function is total: it
never raises. -/
def generate_waveform_universal (env : WaveformEnv) (audio_path : String)
    (samples : Nat) : List ℚ :=
  if strEndsWith (strToLower audio_path) ".wav" && truthyWave env.wavResult then
    env.wavResult.getD []
  else if strEndsWith (strToLower audio_path) ".mp3" && truthyWave env.mp3Result then
    env.mp3Result.getD []
  else
    (List.range samples).map env.rand

end Backend

namespace Backend

/-! Pipeline orchestrator and HTTP handlers (`routes/webhooks.py`). -/

/-- The parsed `config` form field (`json.loads(config)`), read with
`config.get(...)`. -/
structure JobConfig where
  title : Option String
  prompt_config : Option (List String)
  analysis_mode : Option String
deriving Inhabited

/-- The task payload built by `task_service.create_analysis_task` and
consumed by the worker endpoint: one job, never mutated. -/
structure Job where
  user_id : String
  gcs_uri : String
  content_type : String
  original_filename : String
  config : JobConfig
  webhook_url : Option String
  webhook_secret : Option String

/-- One outbound webhook POST attempt: target URL, JSON payload, and the
custom header list passed to `client.post` (the success path passes a
headers dict, the failure path passes none). -/
structure Delivery where
  url : String
  payload : Json
  headers : List (String × String)

/-- Modelled from the spec: `save_full_interview_data` is imported from
`database` by the worker but is absent from the source tree.  Following
the Interview aggregate of the spec and the sibling `save_interview` in
`database.py`, it persists the aggregate as handed over: the duration
stays absent when `none`, and the waveform document is written only when
the list is truthy (nonempty). -/
structure PersistedInterview where
  user_id : String
  interview_id : Nat
  title : String
  transcript_text : String
  transcript_words : List TranscriptBlock
  analysis_data : AnalysisData
  audio_url : String
  audio_duration : Option ℚ
  waveform : Option (List ℚ)

def save_full_interview_data (user_id : String) (interview_id : Nat)
    (title : String) (transcript_text : String)
    (transcript_words : List TranscriptBlock) (analysis_data : AnalysisData)
    (audio_url : String) (audio_duration : Option ℚ)
    (waveform_data : List ℚ) : PersistedInterview :=
  { user_id := user_id
    interview_id := interview_id
    title := title
    transcript_text := transcript_text
    transcript_words := transcript_words
    analysis_data := analysis_data
    audio_url := audio_url
    audio_duration := audio_duration
    waveform := if waveform_data.isEmpty then none else some waveform_data }

/-- Modelled from the spec: `get_audio_duration` is imported by the worker
from `services.waveform_service` but is absent from the source tree; per
the spec a duration-computation failure degrades gracefully (the duration
becomes absent rather than aborting), so the call is modelled as total,
its outcome supplied by the environment (`none` on failure). -/
def get_audio_duration (result : Option ℚ) : Option ℚ := result

/-- External collaborators and ambient state of one pipeline run. -/
structure PipelineEnv where
  download : Except String Unit
  durationResult : Option ℚ
  waveform : WaveformEnv
  signedUrl : Except String String
  transcription : TranscriptionEnv
  analysis : AnalysisEnv
  renameResult : Except String Unit
  saveResult : Except String Unit
  postResult : String → Except String Unit
  nowMs : Nat
  nowS : Nat
  frontendUrl : String
  apiUrl : String

/-- Result of one pipeline run, in terms of its side effects: whether the
top-level exception handler ran (`aborted`), the error message it saw, the
persisted aggregate, the webhook POST attempts in order, and the credit
increments applied to the user by the worker (the worker code performs
none). -/
structure PipelineResult where
  aborted : Bool
  errorMsg : Option String
  persisted : Option PersistedInterview
  deliveries : List Delivery
  ledgerOps : List Int

/-- Python `os.path.splitext(...)[1]`: the last dot-suffix of the name,
where a run of leading dots belongs to the root. -/
def lastDotSuffix : List Char → Option (List Char)
  | [] => none
  | c :: rest =>
      match lastDotSuffix rest with
      | some e => some e
      | none => if c.toNat = 46 then some (c :: rest) else none

def splitextExt (s : String) : String :=
  let cs := s.data
  let rest := cs.drop ((cs.takeWhile (fun c => c.toNat = 46)).length)
  match lastDotSuffix rest with
  | some e => String.mk e
  | none => ""

/-- Python `os.path.basename`: the part after the last slash. -/
def pyBasename (s : String) : String :=
  (splitPieces (fun c => c.toNat = 47) s).getLastD ""

/-- Timestamp rendering of the formatted transcript:
`f"{int(ts // 60)}:{int(ts % 60):02d}"`. -/
def fmtTs (ts : ℚ) : String :=
  let m : Int := Int.floor (ts / 60)
  let s : Int := Int.floor (ts - 60 * (m : ℚ))
  toString m ++ ":" ++ (if s < 10 then "0" ++ toString s else toString s)

def formattedTranscript (blocks : List TranscriptBlock) : String :=
  String.intercalate "\n" (blocks.map (fun b => "[" ++ fmtTs b.timestamp ++ "] " ++ b.text))

def plainTranscript (blocks : List TranscriptBlock) : String :=
  String.intercalate " " (blocks.map (fun b => b.text))

def failurePayload (msg : String) (nowS : Nat) : Json :=
  jObj [("status", .str "error"), ("error", .str msg), ("timestamp", .int nowS)]

/-- The `except` branch of `run_full_analysis_pipeline`: no refund is
issued; when a webhook URL is present the failure payload is POSTed with
no custom headers (and any POST failure is swallowed). -/
def failResult (job : Job) (env : PipelineEnv) (msg : String) : PipelineResult :=
  { aborted := true
    errorMsg := some msg
    persisted := none
    deliveries :=
      match job.webhook_url with
      | some url => [⟨url, failurePayload msg env.nowS, []⟩]
      | none => []
    ledgerOps := [] }

def deepLinks (env : PipelineEnv) (interview_id : Nat) : Json :=
  jObj [("transcript", .str (env.frontendUrl ++ "/transcription/" ++ toString interview_id)),
        ("analysis", .str (env.frontendUrl ++ "/analysis/" ++ toString interview_id)),
        ("report", .str (env.apiUrl ++ "/v1/interviews/" ++ toString interview_id ++ "/report"))]

def successPayload (env : PipelineEnv) (d : AnalysisData) (interview_id : Nat) : Json :=
  jObj [("analysis", analysisDump d), ("deep_links", deepLinks env interview_id)]

/-- Headers of the success POST: the content type, then — only when a
webhook secret is configured — the timestamp header and the hex HMAC-SHA256
over `"{timestamp}.{json.dumps(payload, separators=(",", ":"))}"`. -/
def successHeaders (secret : Option String) (nowS : Nat) (payload : Json) :
    List (String × String) :=
  let base := [("Content-Type", "application/json")]
  match secret with
  | none => base
  | some s =>
      let ts := toString nowS
      let signature :=
        hmacSha256Hex (utf8Bytes s) (utf8Bytes (ts ++ "." ++ renderJson payload))
      base ++ [("X-Interview-Lens-Timestamp", ts), ("X-Interview-Lens-Signature", signature)]

/-- Model of `run_full_analysis_pipeline`: download, duration and waveform,
signed URL, transcription, analysis, rename, persist, then the success
webhook; every raising step jumps to the `except` branch (`failResult`). -/
def run_full_analysis_pipeline (env : PipelineEnv) (job : Job) : PipelineResult :=
  match env.download with
  | .error e => failResult job env e
  | .ok () =>
      let extRaw := splitextExt job.original_filename
      let ext := if extRaw = "" then ".mp3" else extRaw
      let temp_path := "/tmp/upload" ++ ext
      let duration := get_audio_duration env.durationResult
      let waveform_data := generate_waveform_universal env.waveform temp_path 250
      match env.signedUrl with
      | .error e => failResult job env e
      | .ok signed_url =>
          match transcribe_with_deepgram env.transcription signed_url with
          | .error e => failResult job env e
          | .ok transcript_blocks =>
              let full_text := formattedTranscript transcript_blocks
              let plain_text := plainTranscript transcript_blocks
              let analysis_data := generate_analysis_report env.analysis full_text
                job.config.prompt_config (job.config.analysis_mode.getD "fast")
              let interview_id := env.nowMs
              let title := job.config.title.getD ("Interview-" ++ toString interview_id)
              match env.renameResult with
              | .error e => failResult job env e
              | .ok () =>
                  let audio_filename := pyBasename job.gcs_uri
                  let audio_url := "/v1/audio/" ++ audio_filename
                  match transcript_blocks with
                  | [] => failResult job env "list index out of range"
                  | _ :: _ =>
                      match env.saveResult with
                      | .error e => failResult job env e
                      | .ok () =>
                          let persisted := save_full_interview_data job.user_id
                            interview_id title plain_text transcript_blocks
                            analysis_data audio_url duration waveform_data
                          let payload := successPayload env analysis_data interview_id
                          let headers := successHeaders job.webhook_secret env.nowS payload
                          match job.webhook_url with
                          | none =>
                              { aborted := false, errorMsg := none,
                                persisted := some persisted, deliveries := [],
                                ledgerOps := [] }
                          | some url =>
                              let d : Delivery := ⟨url, payload, headers⟩
                              match env.postResult url with
                              | .ok () =>
                                  { aborted := false, errorMsg := none,
                                    persisted := some persisted,
                                    deliveries := [d], ledgerOps := [] }
                              | .error e =>
                                  let f := failResult job env e
                                  { aborted := true, errorMsg := some e,
                                    persisted := some persisted,
                                    deliveries := d :: f.deliveries,
                                    ledgerOps := [] }

/-- HTTP result of the worker endpoint. -/
structure WorkerResult where
  status : Nat
  bodyStatus : String
  pipeline : PipelineResult

/-- Model of `POST /v1/tasks/process-audio`: runs the pipeline and returns
`200 {status: "completed"}` (FastAPI default status code) regardless of the
pipeline outcome, since the pipeline swallows every exception. -/
def process_audio_task (env : PipelineEnv) (request : Job) : WorkerResult :=
  { status := 200
    bodyStatus := "completed"
    pipeline := run_full_analysis_pipeline env request }

end Backend

namespace Backend

/-! Ingress endpoint (`POST /v1/analyze-async`). -/

/-- Authenticated user resolved by `get_current_user`: the uid and the
credit balance field of the user document (absent for a document without
the field; `current_user.get("credits", 0)` defaults it to 0). -/
structure User where
  uid : String
  credits : Option ℚ

/-- Side effects of the ingress handler, in execution order: the staging
upload, credit increments applied via `firestore.Increment`, and the queue
enqueue. -/
inductive IngressEvent where
  | upload
  | creditInc (delta : Int)
  | enqueue
deriving DecidableEq, Repr

/-- External collaborators of the ingress handler: the `json.loads` of the
config form field, the staging upload, the default-secret settings fetch,
the debit update and the enqueue call (each able to raise). -/
structure IngressEnv where
  configParse : Except String JobConfig
  uploadResult : Except String Unit
  settingsSecret : Except String (Option String)
  debitResult : Except String Unit
  enqueueResult : Except String Unit

/-- HTTP outcome of the ingress handler plus its recorded side effects. -/
structure IngressResult where
  status : Nat
  bodyStatus : Option String
  detail : Option String
  events : List IngressEvent

/-- Truthiness check of `if webhook_url and not webhook_url.startswith("http")`. -/
def badWebhookUrl : Option String → Bool
  | none => false
  | some u => u ≠ "" && !strStartsWith u "http"

/-- Python falsiness of the submitted secret (`if not webhook_secret`):
missing or empty. -/
def secretMissing : Option String → Bool
  | none => true
  | some s => s = ""

/-- Model of `analyze_async_endpoint`: config parsing (400), webhook-url
validation (400), credit gate (402), staging upload, default-secret fetch,
atomic debit, enqueue with refund-and-500 on failure, 200 on success.
An exception raised by a collaborator outside any `try` surfaces as a
framework 500 with the effects performed so far. -/
def analyze_async_endpoint (env : IngressEnv) (webhook_url : Option String)
    (webhook_secret : Option String) (user : User) : IngressResult :=
  match env.configParse with
  | .error _ => { status := 400, bodyStatus := none,
                  detail := some "Invalid config JSON", events := [] }
  | .ok _ =>
      if badWebhookUrl webhook_url then
        { status := 400, bodyStatus := none,
          detail := some "If provided, webhook_url must start with http/https",
          events := [] }
      else if user.credits.getD 0 < 1 then
        { status := 402, bodyStatus := none,
          detail := some "Insufficient credits.", events := [] }
      else
        match env.uploadResult with
        | .error _ => { status := 500, bodyStatus := none, detail := none, events := [] }
        | .ok () =>
            match (if secretMissing webhook_secret then env.settingsSecret
                   else .ok webhook_secret) with
            | .error _ =>
                { status := 500, bodyStatus := none, detail := none,
                  events := [.upload] }
            | .ok _ =>
                match env.debitResult with
                | .error _ =>
                    { status := 500, bodyStatus := none, detail := none,
                      events := [.upload] }
                | .ok () =>
                    match env.enqueueResult with
                    | .ok () =>
                        { status := 200, bodyStatus := some "processing",
                          detail := none,
                          events := [.upload, .creditInc (-1), .enqueue] }
                    | .error _ =>
                        { status := 500, bodyStatus := none,
                          detail := some "Failed to queue analysis task",
                          events := [.upload, .creditInc (-1), .creditInc 1] }

end Backend

namespace Backend

/-! Concrete fixtures used by witnesses and counterexamples. -/

def sampleWords : List DgWord :=
  [⟨"hello", some "hello", mkRat 9 10⟩, ⟨"world", some "world.", mkRat 4 5⟩]

def sampleUtterances : List Utterance :=
  [⟨0, 5, "hello world.", some 0, sampleWords⟩,
   ⟨5, 9, "how are you", some 1, []⟩]

def sampleIdGen : Nat → String := fun i => "uuid-" ++ toString i

def okTranscription : TranscriptionEnv :=
  { sdkInstalled := true
    apiKey := some "dg-key"
    transport := .ok (some ⟨[1], some sampleUtterances⟩)
    idGen := sampleIdGen }

def failTranscription : TranscriptionEnv :=
  { okTranscription with transport := .error "DeepgramApiError: 401" }

def sampleLlmJson : Json :=
  jObj [("statistics", jObj [("duration", .str "10:00")])]

def okAnalysisEnv : AnalysisEnv :=
  { projectId := some "proj-1"
    llm := fun _ _ _ => .text "raw"
    jsonLoads := fun _ => .ok sampleLlmJson }

def llmRaisesEnv : AnalysisEnv :=
  { okAnalysisEnv with llm := fun _ _ _ => .raises "503 Service Unavailable" }

def llmEmptyEnv : AnalysisEnv :=
  { okAnalysisEnv with llm := fun _ _ _ => .emptyResp }

def llmBadJsonEnv : AnalysisEnv :=
  { okAnalysisEnv with jsonLoads := fun _ => .error "Expecting value" }

def noProjectEnv : AnalysisEnv :=
  { okAnalysisEnv with projectId := none }

def okWaveform : WaveformEnv :=
  { wavResult := none, mp3Result := some [mkRat 1 2, mkRat 1 4], rand := fun _ => mkRat 7 10 }

def failWaveform : WaveformEnv :=
  { wavResult := none, mp3Result := none, rand := fun _ => mkRat 7 10 }

def baseEnv : PipelineEnv :=
  { download := .ok ()
    durationResult := some 123
    waveform := okWaveform
    signedUrl := .ok "https://signed.example/blob"
    transcription := okTranscription
    analysis := okAnalysisEnv
    renameResult := .ok ()
    saveResult := .ok ()
    postResult := fun _ => .ok ()
    nowMs := 1700000000123
    nowS := 1700000000
    frontendUrl := "https://fe.example"
    apiUrl := "https://api.example" }

def baseConfig : JobConfig :=
  { title := some "My Interview"
    prompt_config := some ["statistics"]
    analysis_mode := some "fast" }

def baseJob : Job :=
  { user_id := "user-1"
    gcs_uri := "user-1/temp_audio/ab12.mp3"
    content_type := "audio/mpeg"
    original_filename := "rec.mp3"
    config := baseConfig
    webhook_url := some "https://callback.example/hook"
    webhook_secret := some "sec" }

def okIngressEnv : IngressEnv :=
  { configParse := .ok baseConfig
    uploadResult := .ok ()
    settingsSecret := .ok none
    debitResult := .ok ()
    enqueueResult := .ok () }

def enqueueFailEnv : IngressEnv :=
  { okIngressEnv with enqueueResult := .error "Cloud Tasks unavailable" }

def richUser : User := { uid := "user-1", credits := some 3 }

def poorUser : User := { uid := "user-2", credits := some (mkRat 1 2) }

/-- Credit delta carried by one ingress event. -/
def creditDelta : IngressEvent → Int
  | .creditInc d => d
  | _ => 0

def isOkE {α : Type} : Except String α → Bool
  | .ok _ => true
  | .error _ => false

def envFailTr : PipelineEnv := { baseEnv with transcription := failTranscription }

def envLlmRaises : PipelineEnv := { baseEnv with analysis := llmRaisesEnv }

def envNoProject : PipelineEnv := { baseEnv with analysis := noProjectEnv }

def mockTopKeys : List String :=
  ["generalComments", "keyPoints", "codingChallenge", "technologies",
   "qaTopics", "statistics"]

/-- JSON response carrying a known key that was not requested. -/
def extraKeyJson : Json :=
  jObj [("statistics", jObj [("duration", .str "12:00")]),
        ("keyPoints", jArr [jObj [("title", .str "T"), ("content", .str "C")]])]

def extraKeyData : AnalysisData :=
  ⟨none, none, none, none,
   some (jArr [jObj [("title", .str "T"), ("content", .str "C")]]),
   none, none, none, some (jObj [("duration", .str "12:00")]), none⟩

def extraKeyEnv : AnalysisEnv :=
  { projectId := some "proj-1"
    llm := fun _ _ _ => .text "raw"
    jsonLoads := fun _ => .ok extraKeyJson }

def envC8 : PipelineEnv :=
  { baseEnv with durationResult := none, waveform := failWaveform }

/-! Validation of the hash embedding against published test vectors
(values computed independently with Python `hashlib`/`hmac`). -/

/-- FIPS 180-4 test vector: SHA-256 of "abc". -/
theorem sha256_vector_abc :
    sha256Hex (utf8Bytes "abc") =
      "ba7816bf8f01cfea414140de5dae2223b00361a396177a9cb410ff61f20015ad" := by
  decide

/-- SHA-256 of the empty message. -/
theorem sha256_vector_empty :
    sha256Hex (utf8Bytes "") =
      "e3b0c44298fc1c149afbf4c8996fb92427ae41e4649b934ca495991b7852b855" := by
  decide

end Backend

namespace Backend

theorem blocksOfUtterances_map_timestamp (g : Nat → String) :
    ∀ (i : Nat) (l : List Utterance),
      (blocksOfUtterances g i l).map TranscriptBlock.timestamp = l.map Utterance.start
  | _, [] => by simp [blocksOfUtterances]
  | i, u :: tl => by
      simp [blocksOfUtterances, blockOfUtterance,
            blocksOfUtterances_map_timestamp g (i + 1) tl]

/-- C9: for a well-formed provider response (utterances chronologically
ordered by start offset), the transcript blocks returned by
`transcribe_with_deepgram` are sorted by start offset ascending — the
parser emits one block per utterance in provider order, copying the start
offset. -/
theorem C9_transcript_segments_sorted (env : TranscriptionEnv) (url : String)
    (results : DgResults) (blocks : List TranscriptBlock)
    (hres : env.transport = .ok (some results))
    (hwf : List.Sorted (· ≤ ·) ((results.utterances.getD []).map Utterance.start))
    (hok : transcribe_with_deepgram env url = .ok blocks) :
    List.Sorted (· ≤ ·) (blocks.map TranscriptBlock.timestamp) := by
  unfold transcribe_with_deepgram at hok
  rw [hres] at hok
  split at hok
  · cases hok
  · split at hok
    · cases hok
    · have hok2 : (match results.channels with
          | [] => (Except.error "Deepgram transcription failed: No results from Deepgram" :
              Except String (List TranscriptBlock))
          | nAlternatives :: _ =>
              if nAlternatives = 0 then
                .error "Deepgram transcription failed: list index out of range"
              else .ok (blocksOfUtterances env.idGen 0 (results.utterances.getD []))) =
            .ok blocks := hok
      rcases hch : results.channels with _ | ⟨n, tl⟩ <;> rw [hch] at hok2
      · have hok3 : (Except.error "Deepgram transcription failed: No results from Deepgram" :
            Except String (List TranscriptBlock)) = .ok blocks := hok2
        cases hok3
      · have hok3 : (if n = 0 then
              (Except.error "Deepgram transcription failed: list index out of range" :
                Except String (List TranscriptBlock))
            else .ok (blocksOfUtterances env.idGen 0 (results.utterances.getD []))) =
              .ok blocks := hok2
        by_cases hn : n = 0
        · rw [if_pos hn] at hok3
          cases hok3
        · rw [if_neg hn] at hok3
          cases hok3
          rw [blocksOfUtterances_map_timestamp]
          exact hwf

/-- Witness for C9 at a concrete two-utterance response. -/
theorem C9_witness :
    List.Sorted (· ≤ ·)
      ((blocksOfUtterances sampleIdGen 0 sampleUtterances).map TranscriptBlock.timestamp) :=
  C9_transcript_segments_sorted okTranscription "https://signed.example/blob"
    ⟨[1], some sampleUtterances⟩ (blocksOfUtterances sampleIdGen 0 sampleUtterances)
    rfl (by decide) rfl

/-- C10: the worker endpoint `POST /v1/tasks/process-audio` answers
`200 {status: "completed"}` for every task request and every environment,
also when the pipeline run aborts, because `run_full_analysis_pipeline`
catches every exception internally; so a pipeline failure never triggers
the queue redelivery. -/
theorem C10_worker_always_completes (env : PipelineEnv) (req : Job) :
    (process_audio_task env req).status = 200
    ∧ (process_audio_task env req).bodyStatus = "completed"
    ∧ ((run_full_analysis_pipeline env req).aborted = true →
        (process_audio_task env req).status = 200
        ∧ (process_audio_task env req).bodyStatus = "completed") :=
  ⟨rfl, rfl, fun _ => ⟨rfl, rfl⟩⟩

/-- Witness for C10 at an aborting run (transcription transport failure). -/
theorem C10_witness :
    (run_full_analysis_pipeline envFailTr baseJob).aborted = true
    ∧ (process_audio_task envFailTr baseJob).status = 200
    ∧ (process_audio_task envFailTr baseJob).bodyStatus = "completed" :=
  ⟨rfl, (C10_worker_always_completes envFailTr baseJob).2.2 rfl⟩

/-- C1: evidence against the claim — for a job admitted with one credit
debited whose transcription step fails, the worker delivers the failure
webhook but applies no credit increment at all (`ledgerOps = []`), so the
net balance change of the failed job is −1, not 0. -/
theorem C1_failed_job_not_refunded :
    (run_full_analysis_pipeline envFailTr baseJob).aborted = true
    ∧ (run_full_analysis_pipeline envFailTr baseJob).ledgerOps = []
    ∧ ((run_full_analysis_pipeline envFailTr baseJob).deliveries.map Delivery.url)
        = ["https://callback.example/hook"]
    ∧ ((run_full_analysis_pipeline envFailTr baseJob).deliveries.map
          (fun d => renderJson d.payload))
        = ["\x7b\"status\":\"error\",\"error\":\"Deepgram transcription failed: DeepgramApiError: 401\",\"timestamp\":1700000000\x7d"]
    ∧ ((analyze_async_endpoint okIngressEnv (some "https://callback.example/hook")
          (some "sec") richUser).events.map creditDelta).sum
        + (run_full_analysis_pipeline envFailTr baseJob).ledgerOps.sum = -1 := by
  refine ⟨rfl, rfl, rfl, rfl, by decide⟩

end Backend

namespace Backend

/-- C3 counterexample: with the generative call raising (transport/auth
failure), `generate_analysis_report` returns the fixed mock report instead
of an error, and the pipeline run carries on to persistence and the
success webhook instead of aborting. -/
theorem C3_counterexample :
    generate_analysis_report llmRaisesEnv "[0:00] hi" (some ["statistics"]) "fast"
        = mockAnalysisData
    ∧ (run_full_analysis_pipeline envLlmRaises baseJob).aborted = false
    ∧ ((run_full_analysis_pipeline envLlmRaises baseJob).persisted.map
          (fun p => populatedKeys p.analysis_data)) = some mockTopKeys :=
  ⟨rfl, rfl, rfl⟩

/-- C3 amended: each of the three failure modes of the analysis step — a
raising generative call, an empty model response, and a malformed-JSON
model response — makes `generate_analysis_report` return the fixed mock
report (so none of them aborts the job). -/
theorem C3_all_failure_modes_fall_back (env : AnalysisEnv) (t : String)
    (blocks : Option (List String)) (mode : String) (p m s : String) :
    (env.projectId = some p →
       env.llm (modelNameFor mode) (selectBlocks blocks) t = .raises m →
       generate_analysis_report env t blocks mode = mockAnalysisData)
    ∧ (env.projectId = some p →
       env.llm (modelNameFor mode) (selectBlocks blocks) t = .emptyResp →
       generate_analysis_report env t blocks mode = mockAnalysisData)
    ∧ (env.projectId = some p →
       env.llm (modelNameFor mode) (selectBlocks blocks) t = .text s →
       env.jsonLoads s = .error m →
       generate_analysis_report env t blocks mode = mockAnalysisData) := by
  refine ⟨fun h1 h2 => ?_, fun h1 h2 => ?_, fun h1 h2 h3 => ?_⟩ <;>
    simp [generate_analysis_report, h1, h2, *]

/-- Witness for C3 at the three concrete failing environments. -/
theorem C3_witness :
    generate_analysis_report llmRaisesEnv "t" (some ["statistics"]) "fast" = mockAnalysisData
    ∧ generate_analysis_report llmEmptyEnv "t" (some ["statistics"]) "fast" = mockAnalysisData
    ∧ generate_analysis_report llmBadJsonEnv "t" (some ["statistics"]) "fast" = mockAnalysisData :=
  ⟨(C3_all_failure_modes_fall_back llmRaisesEnv "t" (some ["statistics"]) "fast"
      "proj-1" "503 Service Unavailable" "raw").1 rfl rfl,
   (C3_all_failure_modes_fall_back llmEmptyEnv "t" (some ["statistics"]) "fast"
      "proj-1" "m" "raw").2.1 rfl rfl,
   (C3_all_failure_modes_fall_back llmBadJsonEnv "t" (some ["statistics"]) "fast"
      "proj-1" "Expecting value" "raw").2.2 rfl rfl rfl⟩

/-- C4 counterexample: a run that requested only the `statistics` block
completes successfully, yet the persisted report carries the six mock keys
— not the requested singleton. -/
theorem C4_counterexample :
    baseJob.config.prompt_config = some ["statistics"]
    ∧ (run_full_analysis_pipeline envNoProject baseJob).aborted = false
    ∧ ((run_full_analysis_pipeline envNoProject baseJob).persisted.map
          (fun p => populatedKeys p.analysis_data)) = some mockTopKeys
    ∧ mockTopKeys ≠ ["statistics"] :=
  ⟨rfl, rfl, rfl, by decide⟩

/-- C4 amended: the populated keys of the report are not constrained to the
requested block ids: on any fallback they are the six mock keys whatever
was requested, and on the parsed path they are exactly the known
`AnalysisData` fields present (non-null) in the model response — shown at
a response carrying an unrequested key. -/
theorem C4_keys_follow_response_not_request (env : AnalysisEnv) (t : String)
    (blocks : Option (List String)) (mode : String)
    (hp : env.projectId = none) :
    populatedKeys (generate_analysis_report env t blocks mode) = mockTopKeys
    ∧ mkAnalysisData extraKeyJson = .ok extraKeyData
    ∧ generate_analysis_report extraKeyEnv "t" (some ["statistics"]) "fast" = extraKeyData
    ∧ populatedKeys extraKeyData = ["keyPoints", "statistics"] := by
  refine ⟨?_, rfl, rfl, rfl⟩
  simp [generate_analysis_report, hp]
  rfl

/-- Witness for C4 at a concrete no-project environment with a
single-block request. -/
theorem C4_witness :
    populatedKeys (generate_analysis_report noProjectEnv "t" (some ["statistics"]) "fast")
      = mockTopKeys :=
  (C4_keys_follow_response_not_request noProjectEnv "t" (some ["statistics"]) "fast" rfl).1

end Backend

namespace Backend

/-- C2: a job is enqueued only with exactly one debit already performed
before the enqueue; a failed enqueue is refunded exactly once and answered
500; and the worker side never touches the ledger, so a replayed queue
delivery cannot re-debit. -/
theorem C2_debit_strictly_before_enqueue (env : IngressEnv)
    (wu ws : Option String) (u : User) (penv : PipelineEnv) (job : Job) :
    (IngressEvent.enqueue ∈ (analyze_async_endpoint env wu ws u).events →
       (analyze_async_endpoint env wu ws u).events
         = [.upload, .creditInc (-1), .enqueue])
    ∧ (∀ e cfg, env.configParse = .ok cfg → badWebhookUrl wu = false →
       1 ≤ u.credits.getD 0 → env.uploadResult = .ok () →
       isOkE (if secretMissing ws then env.settingsSecret else .ok ws) = true →
       env.debitResult = .ok () → env.enqueueResult = .error e →
       (analyze_async_endpoint env wu ws u).status = 500
       ∧ (analyze_async_endpoint env wu ws u).events
           = [.upload, .creditInc (-1), .creditInc 1])
    ∧ (run_full_analysis_pipeline penv job).ledgerOps = []
    ∧ (process_audio_task penv job).pipeline.ledgerOps = [] := by
  have hledger : (run_full_analysis_pipeline penv job).ledgerOps = [] := by
    unfold run_full_analysis_pipeline
    dsimp only
    repeat' split
    all_goals rfl
  refine ⟨?_, ?_, hledger, hledger⟩
  · intro hmem
    rcases hcp : env.configParse with m | cfg <;>
    rcases hup : env.uploadResult with m2 | u2 <;>
    rcases hdb : env.debitResult with m4 | u4 <;>
    rcases henq : env.enqueueResult with m5 | u5 <;>
    rcases hsec : (if secretMissing ws then env.settingsSecret else Except.ok ws)
      with m3 | s3 <;>
    by_cases hb : badWebhookUrl wu <;>
    by_cases hcr : u.credits.getD 0 < 1 <;>
    simp_all [analyze_async_endpoint] <;>
    rw [if_neg (not_lt.mpr hcr)]
  · intro e cfg h1 h2 h3 h4 h5 h6 h7
    have h3n : ¬(u.credits.getD 0 < 1) := not_lt.mpr h3
    rcases hsec : (if secretMissing ws then env.settingsSecret else .ok ws) with m | s0
    · rw [hsec] at h5
      simp [isOkE] at h5
    · unfold analyze_async_endpoint
      rw [h1, h4, hsec, h6, h7]
      simp [h2, h3n]

/-- Witness for C2: a successful admission debits once before the enqueue,
a failing enqueue refunds once and answers 500, and a concrete worker run
performs no ledger operation. -/
theorem C2_witness :
    ((analyze_async_endpoint okIngressEnv (some "https://callback.example/hook")
        none richUser).events = [.upload, .creditInc (-1), .enqueue])
    ∧ ((analyze_async_endpoint enqueueFailEnv (some "https://callback.example/hook")
        none richUser).status = 500
       ∧ (analyze_async_endpoint enqueueFailEnv (some "https://callback.example/hook")
            none richUser).events = [.upload, .creditInc (-1), .creditInc 1])
    ∧ (run_full_analysis_pipeline baseEnv baseJob).ledgerOps = [] :=
  ⟨(C2_debit_strictly_before_enqueue okIngressEnv (some "https://callback.example/hook")
      none richUser baseEnv baseJob).1 (by decide),
   (C2_debit_strictly_before_enqueue enqueueFailEnv (some "https://callback.example/hook")
      none richUser baseEnv baseJob).2.1 "Cloud Tasks unavailable" baseConfig
      rfl (by decide) (by decide) rfl rfl rfl rfl,
   (C2_debit_strictly_before_enqueue okIngressEnv (some "https://callback.example/hook")
      none richUser baseEnv baseJob).2.2.1⟩

/-- C6 counterexample: on the all-success path the endpoint answers the
FastAPI default 200 with body status "processing", not the 202 the claim
states. -/
theorem C6_counterexample :
    (analyze_async_endpoint okIngressEnv (some "https://callback.example/hook")
        none richUser).bodyStatus = some "processing"
    ∧ (analyze_async_endpoint okIngressEnv (some "https://callback.example/hook")
        none richUser).status = 200
    ∧ (analyze_async_endpoint okIngressEnv (some "https://callback.example/hook")
        none richUser).status ≠ 202 :=
  ⟨rfl, rfl, by decide⟩

/-- C6 amended: with a parsable config and an acceptable webhook URL, a
balance below 1 is answered 402 with no side effect at all (no upload, no
debit, no enqueue), and a balance of at least 1 with staging and enqueue
succeeding is answered 200 (the FastAPI default, not 202) with body status
"processing". -/
theorem C6_credit_gate (env : IngressEnv) (wu ws : Option String) (u : User)
    (cfg : JobConfig) (hcfg : env.configParse = .ok cfg)
    (hurl : badWebhookUrl wu = false) :
    (u.credits.getD 0 < 1 →
       (analyze_async_endpoint env wu ws u).status = 402
       ∧ (analyze_async_endpoint env wu ws u).events = [])
    ∧ (1 ≤ u.credits.getD 0 → env.uploadResult = .ok () →
       isOkE (if secretMissing ws then env.settingsSecret else .ok ws) = true →
       env.debitResult = .ok () → env.enqueueResult = .ok () →
       (analyze_async_endpoint env wu ws u).status = 200
       ∧ (analyze_async_endpoint env wu ws u).bodyStatus = some "processing"
       ∧ (analyze_async_endpoint env wu ws u).events
           = [.upload, .creditInc (-1), .enqueue]) := by
  constructor
  · intro hlt
    unfold analyze_async_endpoint
    rw [hcfg]
    simp [hurl, hlt]
  · intro h3 h4 h5 h6 h7
    have h3n : ¬(u.credits.getD 0 < 1) := not_lt.mpr h3
    rcases hsec : (if secretMissing ws then env.settingsSecret else .ok ws) with m | s0
    · rw [hsec] at h5
      simp [isOkE] at h5
    · unfold analyze_async_endpoint
      rw [hcfg, h4, hsec, h6, h7]
      simp [hurl, h3n]

/-- Witness for C6: the 0.5-credit user is refused with 402 and no
effects; the 3-credit user is admitted with 200/processing. -/
theorem C6_witness :
    ((analyze_async_endpoint okIngressEnv (some "https://callback.example/hook")
        none poorUser).status = 402
     ∧ (analyze_async_endpoint okIngressEnv (some "https://callback.example/hook")
          none poorUser).events = [])
    ∧ ((analyze_async_endpoint okIngressEnv (some "https://callback.example/hook")
          none richUser).status = 200
       ∧ (analyze_async_endpoint okIngressEnv (some "https://callback.example/hook")
            none richUser).bodyStatus = some "processing"
       ∧ (analyze_async_endpoint okIngressEnv (some "https://callback.example/hook")
            none richUser).events = [.upload, .creditInc (-1), .enqueue]) :=
  ⟨(C6_credit_gate okIngressEnv (some "https://callback.example/hook") none poorUser
      baseConfig rfl (by decide)).1 (by decide),
   (C6_credit_gate okIngressEnv (some "https://callback.example/hook") none richUser
      baseConfig rfl (by decide)).2 (by decide) rfl rfl rfl rfl⟩

end Backend

namespace Backend

/-- Shape of an aborted pipeline run: either the run did not abort, or its
last webhook attempt is exactly the one made by the exception handler. -/
theorem pipeline_abort_shape (env : PipelineEnv) (job : Job) :
    (run_full_analysis_pipeline env job).aborted = false
    ∨ ∃ e, (run_full_analysis_pipeline env job).errorMsg = some e
        ∧ (run_full_analysis_pipeline env job).deliveries.getLast?
            = (failResult job env e).deliveries.getLast? := by
  unfold run_full_analysis_pipeline
  dsimp only
  repeat' split
  all_goals first
    | (left; rfl)
    | (right; exact ⟨_, rfl, rfl⟩)
    | (right
       refine ⟨_, rfl, ?_⟩
       simp_all [failResult])

/-- C7 amended: when the pipeline aborts, the failure webhook POSTed to the
job's URL has payload `{status: "error", error, timestamp}` but is always
delivered without custom headers — unsigned even when a webhook secret is
configured. -/
theorem C7_failure_webhook_unsigned (env : PipelineEnv) (job : Job)
    (url m : String)
    (hab : (run_full_analysis_pipeline env job).aborted = true)
    (herr : (run_full_analysis_pipeline env job).errorMsg = some m)
    (hurl : job.webhook_url = some url) :
    (run_full_analysis_pipeline env job).deliveries.getLast?
      = some ⟨url, failurePayload m env.nowS, []⟩ := by
  rcases pipeline_abort_shape env job with hfalse | ⟨e, he, hl⟩
  · rw [hab] at hfalse
    cases hfalse
  · rw [herr] at he
    cases he
    rw [hl]
    simp [failResult, hurl]

/-- Witness for C7: a concrete aborting run with a configured secret
still produces the unsigned failure delivery. -/
theorem C7_witness :
    (run_full_analysis_pipeline envFailTr baseJob).deliveries.getLast?
      = some ⟨"https://callback.example/hook",
              failurePayload "Deepgram transcription failed: DeepgramApiError: 401" 1700000000,
              []⟩ :=
  C7_failure_webhook_unsigned envFailTr baseJob "https://callback.example/hook"
    "Deepgram transcription failed: DeepgramApiError: 401" rfl rfl rfl

/-- C7 counterexample: the job configures a webhook secret, the run aborts,
yet the failure delivery carries an empty custom-header list — no
timestamp header and no signature header, so it is not signed. -/
theorem C7_counterexample :
    baseJob.webhook_secret = some "sec"
    ∧ (run_full_analysis_pipeline envFailTr baseJob).aborted = true
    ∧ ((run_full_analysis_pipeline envFailTr baseJob).deliveries.map Delivery.headers)
        = [[]] :=
  ⟨rfl, rfl, rfl⟩

end Backend

namespace Backend

/-- C8 amended: failures of the duration computation (spec-modelled) and of
both waveform readers never abort the run — transcription, analysis,
persistence and webhook delivery proceed; the persisted duration becomes
absent, but the waveform does not: the 250-sample placeholder envelope is
persisted in its place. -/
theorem C8_duration_waveform_degrade (env : PipelineEnv) (job : Job)
    (su url : String) (blocks : List TranscriptBlock)
    (hd : env.download = .ok ())
    (hdur : env.durationResult = none)
    (hwav : truthyWave env.waveform.wavResult = false)
    (hmp3 : truthyWave env.waveform.mp3Result = false)
    (hsu : env.signedUrl = .ok su)
    (htr : transcribe_with_deepgram env.transcription su = .ok blocks)
    (hne : blocks ≠ [])
    (hrn : env.renameResult = .ok ())
    (hsv : env.saveResult = .ok ())
    (hurl : job.webhook_url = some url)
    (hpost : env.postResult url = .ok ()) :
    (run_full_analysis_pipeline env job).aborted = false
    ∧ ((run_full_analysis_pipeline env job).persisted.map PersistedInterview.audio_duration)
        = some none
    ∧ ((run_full_analysis_pipeline env job).persisted.map PersistedInterview.waveform)
        = some (some ((List.range 250).map env.waveform.rand))
    ∧ (run_full_analysis_pipeline env job).deliveries.length = 1 := by
  obtain ⟨b0, bs, rfl⟩ := List.exists_cons_of_ne_nil hne
  have hwv : ∀ path, generate_waveform_universal env.waveform path 250
      = (List.range 250).map env.waveform.rand := by
    intro path
    unfold generate_waveform_universal
    rw [hwav, hmp3]
    simp
  have hplains : ((List.range 250).map env.waveform.rand).isEmpty = false := by
    rw [List.isEmpty_eq_false_iff_exists_mem]
    exact ⟨env.waveform.rand 0, List.mem_map_of_mem _ (by simp)⟩
  refine ⟨?_, ?_, ?_, ?_⟩ <;>
    simp [run_full_analysis_pipeline, hd, hdur, hsu, htr, hrn, hsv, hurl, hpost,
          hwv, hplains, get_audio_duration, save_full_interview_data]

/-- Witness for C8 at a concrete run whose duration and waveform
computations both fail. -/
theorem C8_witness :
    (run_full_analysis_pipeline envC8 baseJob).aborted = false
    ∧ ((run_full_analysis_pipeline envC8 baseJob).persisted.map PersistedInterview.audio_duration)
        = some none
    ∧ ((run_full_analysis_pipeline envC8 baseJob).persisted.map PersistedInterview.waveform)
        = some (some ((List.range 250).map envC8.waveform.rand))
    ∧ (run_full_analysis_pipeline envC8 baseJob).deliveries.length = 1 :=
  C8_duration_waveform_degrade envC8 baseJob "https://signed.example/blob"
    "https://callback.example/hook"
    (blocksOfUtterances sampleIdGen 0 sampleUtterances)
    rfl rfl rfl rfl rfl rfl (by decide) rfl rfl rfl rfl

set_option maxRecDepth 40000 in
/-- C8 counterexample: in that run the persisted waveform is present — a
250-entry placeholder — where the claim requires it to be absent. -/
theorem C8_counterexample :
    (run_full_analysis_pipeline envC8 baseJob).aborted = false
    ∧ ((run_full_analysis_pipeline envC8 baseJob).persisted.map PersistedInterview.waveform)
        = some (some (List.replicate 250 (mkRat 7 10)))
    ∧ some (some (List.replicate 250 (mkRat 7 10)))
        ≠ (some none : Option (Option (List ℚ))) := by
  refine ⟨rfl, ?_, by decide⟩
  decide

end Backend

namespace Backend

set_option maxRecDepth 400000 in
/-- C5: on the success path with a configured secret, the delivery carries
exactly the two signature headers besides the content type: the unix
timestamp, and the hex HMAC-SHA256 keyed by the secret over
`"{timestamp}.{canonical_json(payload)}"` with the compact `json.dumps`
rendering; the embedded HMAC agrees with an independently computed
Python `hmac` test vector, and changing one byte of the payload changes
the signature header. -/
theorem C5_success_webhook_signature (env : PipelineEnv) (job : Job)
    (url s su : String) (blocks : List TranscriptBlock)
    (hd : env.download = .ok ())
    (hsu : env.signedUrl = .ok su)
    (htr : transcribe_with_deepgram env.transcription su = .ok blocks)
    (hne : blocks ≠ [])
    (hrn : env.renameResult = .ok ())
    (hsv : env.saveResult = .ok ())
    (hurl : job.webhook_url = some url)
    (hsec : job.webhook_secret = some s)
    (hpost : env.postResult url = .ok ()) :
    (run_full_analysis_pipeline env job).deliveries
      = [⟨url,
          successPayload env
            (generate_analysis_report env.analysis (formattedTranscript blocks)
              job.config.prompt_config (job.config.analysis_mode.getD "fast"))
            env.nowMs,
          [("Content-Type", "application/json"),
           ("X-Interview-Lens-Timestamp", toString env.nowS),
           ("X-Interview-Lens-Signature",
             hmacSha256Hex (utf8Bytes s)
               (utf8Bytes (toString env.nowS ++ "." ++
                 renderJson (successPayload env
                   (generate_analysis_report env.analysis (formattedTranscript blocks)
                     job.config.prompt_config (job.config.analysis_mode.getD "fast"))
                   env.nowMs))))]⟩]
    ∧ hmacSha256Hex (utf8Bytes "k") (utf8Bytes "abc")
        = "342e519ce0ad6c03a36b98eeb3f1d130db4813b9df4d1160eda488d712dc78ee"
    ∧ successHeaders (some "sec") 1700000000 (jObj [("a", .str "x")])
        ≠ successHeaders (some "sec") 1700000000 (jObj [("a", .str "y")]) := by
  obtain ⟨b0, bs, rfl⟩ := List.exists_cons_of_ne_nil hne
  refine ⟨?_, by decide, by decide⟩
  simp [run_full_analysis_pipeline, hd, hsu, htr, hrn, hsv, hurl, hsec, hpost,
        successHeaders]

/-- Witness for C5 at a concrete successful run with secret "sec". -/
theorem C5_witness :
    (run_full_analysis_pipeline baseEnv baseJob).deliveries
      = [⟨"https://callback.example/hook",
          successPayload baseEnv
            (generate_analysis_report baseEnv.analysis
              (formattedTranscript (blocksOfUtterances sampleIdGen 0 sampleUtterances))
              baseJob.config.prompt_config (baseJob.config.analysis_mode.getD "fast"))
            baseEnv.nowMs,
          [("Content-Type", "application/json"),
           ("X-Interview-Lens-Timestamp", toString baseEnv.nowS),
           ("X-Interview-Lens-Signature",
             hmacSha256Hex (utf8Bytes "sec")
               (utf8Bytes (toString baseEnv.nowS ++ "." ++
                 renderJson (successPayload baseEnv
                   (generate_analysis_report baseEnv.analysis
                     (formattedTranscript (blocksOfUtterances sampleIdGen 0 sampleUtterances))
                     baseJob.config.prompt_config (baseJob.config.analysis_mode.getD "fast"))
                   baseEnv.nowMs))))]⟩] :=
  (C5_success_webhook_signature baseEnv baseJob "https://callback.example/hook" "sec"
    "https://signed.example/blob" (blocksOfUtterances sampleIdGen 0 sampleUtterances)
    rfl rfl rfl (by decide) rfl rfl rfl rfl rfl).1

end Backend
